import Mathlib

/-!
Verification of the chronoutil calendar-duration library.

The development shallowly embeds the library's Rust sources:

* `src/delta.rs` — leap years, day normalisation, month and year shifting
  (`is_leap_year`, `normalise_day`, `shift_months_opt`, `with_day`, ...);
* `src/relative_duration.rs` — the `RelativeDuration` value type and its
  arithmetic, and the `Add`/`Sub` impls that apply it to a date;
* `src/relative_duration/parse.rs` — the ISO-8601 duration codec;
* `src/rule.rs` — the `DateRule` iterator of evenly spaced dates.

The external chrono crate is modelled by the structures `NDate` (a plain
calendar date: the fields of a `NaiveDate`, together with the validity
check its constructors enforce) and `CDuration` (a signed span of time
held as whole seconds plus a nanosecond part in `[0, 10^9)`, exactly as
chrono stores it).  Machine integers are modelled by `Int`; the places
where the Rust code performs checked arithmetic carry explicit range
checks against the corresponding bit-width bounds.  Rust's truncating
`/` and `%` are `Int.tdiv` and `Int.tmod`.
-/

/-! ## Calendar basics: src/delta.rs -/

/-- Model of `is_leap_year` (src/delta.rs): naive Gregorian leap-year test. -/
def is_leap_year (year : Int) : Bool :=
  year.tmod 4 == 0 && (year.tmod 100 != 0 || year.tmod 400 == 0)

/-- Model of `normalise_day` (src/delta.rs): shift a day that overflows the
month backwards to the month's final day; days at most 28 are untouched. -/
def normalise_day (year : Int) (month day : Nat) : Nat :=
  if day ≤ 28 then day
  else if month = 2 then 28 + (if is_leap_year year then 1 else 0)
  else if day = 31 ∧ (month = 4 ∨ month = 6 ∨ month = 9 ∨ month = 11) then 30
  else day

/-- Model of a chrono `NaiveDate` (and of the date part that the `Datelike`
capability exposes): the raw year, month and day fields. -/
structure NDate where
  year : Int
  month : Nat
  day : Nat
deriving DecidableEq

/-- Smallest year representable by a chrono `NaiveDate`. -/
def MIN_YEAR : Int := -262143

/-- Largest year representable by a chrono `NaiveDate`. -/
def MAX_YEAR : Int := 262142

/-- Number of days of a month in the proleptic Gregorian calendar. -/
def days_in_month (year : Int) (month : Nat) : Nat :=
  if month = 2 then (if is_leap_year year then 29 else 28)
  else if month = 4 ∨ month = 6 ∨ month = 9 ∨ month = 11 then 30
  else 31

/-- Validity of an `NDate` triple: exactly the dates chrono's `NaiveDate`
can hold (year in the supported range, month 1-12, day within the month). -/
def NDate.isValid (d : NDate) : Bool :=
  decide (MIN_YEAR ≤ d.year) && decide (d.year ≤ MAX_YEAR) &&
  decide (1 ≤ d.month) && decide (d.month ≤ 12) &&
  decide (1 ≤ d.day) && decide (d.day ≤ days_in_month d.year d.month)

/-- Model of chrono's `Datelike::with_day`: replace the day field, `none`
when the resulting date does not exist. -/
def NDate.with_day (d : NDate) (day : Nat) : Option NDate :=
  if (NDate.mk d.year d.month day).isValid then some ⟨d.year, d.month, day⟩ else none

/-- Model of chrono's `Datelike::with_month`: replace the month field,
`none` when the resulting date does not exist. -/
def NDate.with_month (d : NDate) (month : Nat) : Option NDate :=
  if (NDate.mk d.year month d.day).isValid then some ⟨d.year, month, d.day⟩ else none

/-- Model of chrono's `Datelike::with_year`: replace the year field, `none`
when the resulting date does not exist. -/
def NDate.with_year (d : NDate) (year : Int) : Option NDate :=
  if (NDate.mk year d.month d.day).isValid then some ⟨year, d.month, d.day⟩ else none

/-- Model of `shift_months_opt` (src/delta.rs): shift a date by a number of
months, normalising ambiguous month-ends backwards, threading every
intermediate field replacement through `Option`. -/
def shift_months_opt (date : NDate) (months : Int) : Option NDate :=
  let total : Int := (date.month : Int) + months
  let year0 : Int := date.year + total.tdiv 12
  let month0 : Int := total.tmod 12
  let year : Int := if month0 < 1 then year0 - 1 else year0
  let month : Int := if month0 < 1 then month0 + 12 else month0
  let day : Nat := normalise_day year month.toNat date.day
  if day ≤ 28 then
    ((date.with_day day).bind fun x => x.with_month month.toNat).bind fun x =>
      x.with_year year
  else
    ((((date.with_day 1).bind fun x => x.with_month month.toNat).bind fun x =>
      x.with_year year).bind fun x => x.with_day day)

/-- Model of `shift_months` (src/delta.rs): the panicking variant; the
`unwrap` of a `None` (unreachable in the verified uses) is modelled by
returning the input date. -/
def shift_months (date : NDate) (months : Int) : NDate :=
  (shift_months_opt date months).getD date

/-- Model of `shift_years_opt` (src/delta.rs). -/
def shift_years_opt (date : NDate) (years : Int) : Option NDate :=
  shift_months_opt date (years * 12)

/-- Model of `shift_years` (src/delta.rs). -/
def shift_years (date : NDate) (years : Int) : NDate :=
  (shift_years_opt date years).getD date

/-- Model of the free function `with_day` (src/delta.rs): move the date to
the given day, rejecting days outside 1-31 and normalising month-ends
backwards. -/
def with_day (date : NDate) (day : Nat) : Option NDate :=
  if day = 0 ∨ day > 31 then none
  else date.with_day (normalise_day date.year date.month day)

/-! ## Basic facts about the calendar model -/

theorem isValid_iff (d : NDate) :
    d.isValid = true ↔
      MIN_YEAR ≤ d.year ∧ d.year ≤ MAX_YEAR ∧ 1 ≤ d.month ∧ d.month ≤ 12 ∧
      1 ≤ d.day ∧ d.day ≤ days_in_month d.year d.month := by
  simp [NDate.isValid, Bool.and_eq_true, decide_eq_true_iff, and_assoc]

theorem days_in_month_bounds (year : Int) (month : Nat) :
    28 ≤ days_in_month year month ∧ days_in_month year month ≤ 31 := by
  unfold days_in_month
  split_ifs <;> omega

theorem normalise_day_pos (year : Int) (month day : Nat) (h : 1 ≤ day) :
    1 ≤ normalise_day year month day := by
  unfold normalise_day
  split_ifs <;> omega

theorem normalise_day_le (year : Int) (month day : Nat) (h : day ≤ 31) :
    normalise_day year month day ≤ days_in_month year month := by
  unfold normalise_day days_in_month
  split_ifs <;> omega

example : is_leap_year 2020 = true := by decide
example : is_leap_year 2021 = false := by decide
example : is_leap_year 2000 = true := by decide
example : is_leap_year 1900 = false := by decide
example : shift_months ⟨2020, 1, 31⟩ 1 = ⟨2020, 2, 29⟩ := by decide
example : shift_months ⟨2020, 1, 31⟩ 2 = ⟨2020, 3, 31⟩ := by decide
example : shift_months ⟨2020, 1, 31⟩ 3 = ⟨2020, 4, 30⟩ := by decide
example : shift_months ⟨2020, 1, 31⟩ 13 = ⟨2021, 2, 28⟩ := by decide
example : shift_months ⟨2020, 1, 31⟩ (-1) = ⟨2019, 12, 31⟩ := by decide
example : shift_months ⟨2020, 1, 31⟩ (-11) = ⟨2019, 2, 28⟩ := by decide
example : shift_months ⟨2020, 1, 31⟩ (-13) = ⟨2018, 12, 31⟩ := by decide
example : shift_months ⟨2020, 1, 31⟩ 1265 = ⟨2125, 6, 30⟩ := by decide
example : shift_months ⟨2020, 12, 31⟩ (-10) = ⟨2020, 2, 29⟩ := by decide
example : shift_years ⟨2020, 2, 29⟩ 80 = ⟨2100, 2, 28⟩ := by decide
example : with_day ⟨2020, 2, 1⟩ 31 = some ⟨2020, 2, 29⟩ := by decide
example : with_day ⟨2020, 2, 1⟩ 42 = none := by decide

theorem tmod_bounds (a : Int) {b : Int} (hb : 0 < b) : -b < a.tmod b ∧ a.tmod b < b := by
  refine ⟨?_, Int.tmod_lt_of_pos a hb⟩
  rcases Int.le_total 0 a with h | h
  · exact lt_of_lt_of_le (by omega) (Int.tmod_nonneg b h)
  · have hneg : (-a).tmod b = -(a.tmod b) := by
      rw [Int.tmod_def, Int.tmod_def, Int.neg_tdiv]; ring
    have := Int.tmod_lt_of_pos (-a) hb
    omega

theorem with_day_some (d : NDate) (day : Nat)
    (h : (NDate.mk d.year d.month day).isValid = true) :
    d.with_day day = some ⟨d.year, d.month, day⟩ := by
  simp [NDate.with_day, h]

theorem with_month_some (d : NDate) (month : Nat)
    (h : (NDate.mk d.year month d.day).isValid = true) :
    d.with_month month = some ⟨d.year, month, d.day⟩ := by
  simp [NDate.with_month, h]

theorem with_year_some (d : NDate) (year : Int)
    (h : (NDate.mk year d.month d.day).isValid = true) :
    d.with_year year = some ⟨year, d.month, d.day⟩ := by
  simp [NDate.with_year, h]

theorem chain_eval (d : NDate) (Y M : Int) (day : Nat)
    (hd : d.isValid = true)
    (hY1 : MIN_YEAR ≤ Y) (hY2 : Y ≤ MAX_YEAR) (hM1 : 1 ≤ M) (hM2 : M ≤ 12)
    (hday1 : 1 ≤ day) (hday2 : day ≤ days_in_month Y M.toNat) :
    (if day ≤ 28 then
      ((d.with_day day).bind fun x => x.with_month M.toNat).bind fun x =>
        x.with_year Y
    else
      ((((d.with_day 1).bind fun x => x.with_month M.toNat).bind fun x =>
        x.with_year Y).bind fun x => x.with_day day)) = some ⟨Y, M.toNat, day⟩ := by
  rw [isValid_iff] at hd
  obtain ⟨hy1, hy2, hm1, hm2, hd1, hd2⟩ := hd
  have hb1 := days_in_month_bounds d.year d.month
  have hb2 := days_in_month_bounds d.year M.toNat
  have hb3 := days_in_month_bounds Y M.toNat
  by_cases hle : day ≤ 28
  · rw [if_pos hle]
    rw [with_day_some d day
      (by rw [isValid_iff]; dsimp only; exact ⟨hy1, hy2, hm1, hm2, hday1, by omega⟩)]
    simp only [Option.some_bind]
    rw [with_month_some ⟨d.year, d.month, day⟩ M.toNat
      (by rw [isValid_iff]; dsimp only; refine ⟨hy1, hy2, by omega, by omega, hday1, by omega⟩)]
    simp only [Option.some_bind]
    rw [with_year_some ⟨d.year, M.toNat, day⟩ Y
      (by rw [isValid_iff]; dsimp only; refine ⟨hY1, hY2, by omega, by omega, hday1, by omega⟩)]
  · rw [if_neg hle]
    rw [with_day_some d 1
      (by rw [isValid_iff]; dsimp only; refine ⟨hy1, hy2, hm1, hm2, by omega, by omega⟩)]
    simp only [Option.some_bind]
    rw [with_month_some ⟨d.year, d.month, 1⟩ M.toNat
      (by rw [isValid_iff]; dsimp only; refine ⟨hy1, hy2, by omega, by omega, by omega, by omega⟩)]
    simp only [Option.some_bind]
    rw [with_year_some ⟨d.year, M.toNat, 1⟩ Y
      (by rw [isValid_iff]; dsimp only; refine ⟨hY1, hY2, by omega, by omega, by omega, by omega⟩)]
    simp only [Option.some_bind]
    rw [with_day_some ⟨Y, M.toNat, 1⟩ day
      (by rw [isValid_iff]; dsimp only; refine ⟨hY1, hY2, by omega, by omega, hday1, hday2⟩)]

theorem shift_months_opt_spec (d : NDate) (n : Int) (hd : d.isValid = true)
    (hy : MIN_YEAR * 12 + 1 ≤ d.year * 12 + d.month + n ∧
          d.year * 12 + d.month + n ≤ MAX_YEAR * 12 + 12) :
    ∃ d', shift_months_opt d n = some d' ∧
      1 ≤ d'.month ∧ d'.month ≤ 12 ∧
      d'.year * 12 + (d'.month : Int) = d.year * 12 + d.month + n ∧
      d'.day = normalise_day d'.year d'.month d.day := by
  have hdv := hd
  rw [isValid_iff] at hdv
  obtain ⟨hy1, hy2, hm1, hm2, hd1, hd2⟩ := hdv
  have hb1 := days_in_month_bounds d.year d.month
  set total : Int := (d.month : Int) + n with htotal
  have h12 : 12 * total.tdiv 12 + total.tmod 12 = total := Int.tdiv_add_tmod total 12
  have hmb := tmod_bounds total (show (0:Int) < 12 by norm_num)
  unfold shift_months_opt
  simp only
  by_cases hm0 : total.tmod 12 < 1
  · rw [if_pos hm0, if_pos hm0]
    set Y : Int := d.year + total.tdiv 12 - 1 with hY
    set M : Int := total.tmod 12 + 12 with hM
    have hM1 : 1 ≤ M := by omega
    have hM2 : M ≤ 12 := by omega
    have hYb1 : MIN_YEAR ≤ Y := by omega
    have hYb2 : Y ≤ MAX_YEAR := by omega
    refine ⟨⟨Y, M.toNat, normalise_day Y M.toNat d.day⟩, ?_, ?_, ?_, ?_, rfl⟩
    · exact chain_eval d Y M (normalise_day Y M.toNat d.day) hd hYb1 hYb2 hM1 hM2
        (normalise_day_pos _ _ _ hd1) (normalise_day_le _ _ _ (by omega))
    · show 1 ≤ M.toNat
      omega
    · show M.toNat ≤ 12
      omega
    · show Y * 12 + (M.toNat : Int) = d.year * 12 + d.month + n
      omega
  · rw [if_neg hm0, if_neg hm0]
    set Y : Int := d.year + total.tdiv 12 with hY
    set M : Int := total.tmod 12 with hM
    have hM1 : 1 ≤ M := by omega
    have hM2 : M ≤ 12 := by omega
    have hYb1 : MIN_YEAR ≤ Y := by omega
    have hYb2 : Y ≤ MAX_YEAR := by omega
    refine ⟨⟨Y, M.toNat, normalise_day Y M.toNat d.day⟩, ?_, ?_, ?_, ?_, rfl⟩
    · exact chain_eval d Y M (normalise_day Y M.toNat d.day) hd hYb1 hYb2 hM1 hM2
        (normalise_day_pos _ _ _ hd1) (normalise_day_le _ _ _ (by omega))
    · show 1 ≤ M.toNat
      omega
    · show M.toNat ≤ 12
      omega
    · show Y * 12 + (M.toNat : Int) = d.year * 12 + d.month + n
      omega

/-- Claim C1: for every valid date `d` and every month count `n` whose target
year stays representable, `shift_months_opt` returns a date whose year and
month satisfy the linear relation of the shift (month kept in 1..=12) and
whose day follows the backward month-end normalisation rule: unchanged when
at most 28, else 29/28 in a leap/common February, 30 for a 31st landing in a
30-day month, and unchanged otherwise. -/
theorem claim_C1 (d : NDate) (n : Int) (hd : d.isValid = true)
    (hy : MIN_YEAR * 12 + 1 ≤ d.year * 12 + d.month + n ∧
          d.year * 12 + d.month + n ≤ MAX_YEAR * 12 + 12) :
    ∃ d', shift_months_opt d n = some d' ∧ 1 ≤ d'.month ∧ d'.month ≤ 12 ∧
      d'.year * 12 + (d'.month : Int) = d.year * 12 + d.month + n ∧
      d'.day = (if d.day ≤ 28 then d.day
        else if d'.month = 2 then (if is_leap_year d'.year then 29 else 28)
        else if d.day = 31 ∧ (d'.month = 4 ∨ d'.month = 6 ∨ d'.month = 9 ∨ d'.month = 11) then 30
        else d.day) := by
  obtain ⟨d', he, h1, h2, h3, h4⟩ := shift_months_opt_spec d n hd hy
  refine ⟨d', he, h1, h2, h3, ?_⟩
  rw [h4]
  unfold normalise_day
  split_ifs <;> omega

/-- Witness for C1 at the concrete input 2020-01-31 shifted by 13 months. -/
theorem claim_C1_witness :
    (NDate.mk 2020 1 31).isValid = true ∧
    (MIN_YEAR * 12 + 1 ≤ (NDate.mk 2020 1 31).year * 12 + (NDate.mk 2020 1 31).month + 13 ∧
      (NDate.mk 2020 1 31).year * 12 + (NDate.mk 2020 1 31).month + 13 ≤ MAX_YEAR * 12 + 12) ∧
    (∃ d', shift_months_opt ⟨2020, 1, 31⟩ 13 = some d' ∧ 1 ≤ d'.month ∧ d'.month ≤ 12 ∧
      d'.year * 12 + (d'.month : Int) =
        (NDate.mk 2020 1 31).year * 12 + (NDate.mk 2020 1 31).month + 13 ∧
      d'.day = (if (NDate.mk 2020 1 31).day ≤ 28 then (NDate.mk 2020 1 31).day
        else if d'.month = 2 then (if is_leap_year d'.year then 29 else 28)
        else if (NDate.mk 2020 1 31).day = 31 ∧
            (d'.month = 4 ∨ d'.month = 6 ∨ d'.month = 9 ∨ d'.month = 11) then 30
        else (NDate.mk 2020 1 31).day)) :=
  ⟨by decide, ⟨by decide, by decide⟩, claim_C1 ⟨2020, 1, 31⟩ 13 (by decide) ⟨by decide, by decide⟩⟩

/-- Claim C7: for every valid plain date and every month count whose target
year stays in the supported range, `shift_months_opt` returns `Some`; the
bind chain it runs means every intermediate field replacement succeeded, so
the `None` branch is unreachable for plain dates in range. -/
theorem claim_C7 (d : NDate) (n : Int) (hd : d.isValid = true)
    (hy : MIN_YEAR * 12 + 1 ≤ d.year * 12 + d.month + n ∧
          d.year * 12 + d.month + n ≤ MAX_YEAR * 12 + 12) :
    (shift_months_opt d n).isSome = true := by
  obtain ⟨d', he, _⟩ := shift_months_opt_spec d n hd hy
  rw [he]
  rfl

/-- Witness for C7 at the concrete input 2020-12-31 shifted by 2 months. -/
theorem claim_C7_witness :
    (NDate.mk 2020 12 31).isValid = true ∧
    (MIN_YEAR * 12 + 1 ≤ (NDate.mk 2020 12 31).year * 12 + (NDate.mk 2020 12 31).month + 2 ∧
      (NDate.mk 2020 12 31).year * 12 + (NDate.mk 2020 12 31).month + 2 ≤ MAX_YEAR * 12 + 12) ∧
    (shift_months_opt ⟨2020, 12, 31⟩ 2).isSome = true :=
  ⟨by decide, ⟨by decide, by decide⟩, claim_C7 ⟨2020, 12, 31⟩ 2 (by decide) ⟨by decide, by decide⟩⟩

/-! ## The chrono Duration model and RelativeDuration: src/relative_duration.rs -/

/-- Nanoseconds per second, as in chrono. -/
def NANOS_PER_SEC : Int := 1000000000

/-- Model of chrono's `Duration` (`TimeDelta`): a signed span stored as whole
seconds plus a nanosecond part that chrono keeps in `[0, 10^9)`. -/
structure CDuration where
  secs : Int
  nanos : Int
deriving DecidableEq

/-- Seconds field of chrono's `Duration::MAX` (`i64::MAX` milliseconds). -/
def DUR_MAX_SECS : Int := 9223372036854775

/-- Nanoseconds field of chrono's `Duration::MAX`. -/
def DUR_MAX_NANOS : Int := 807000000

/-- Seconds field of chrono's `Duration::MIN` (the negation of `MAX`). -/
def DUR_MIN_SECS : Int := -9223372036854776

/-- Nanoseconds field of chrono's `Duration::MIN`. -/
def DUR_MIN_NANOS : Int := 193000000

/-- Value of a `CDuration` in nanoseconds. -/
def CDuration.totalNanos (d : CDuration) : Int := d.secs * NANOS_PER_SEC + d.nanos

/-- Normalised `CDuration` holding the given number of nanoseconds (the
nanosecond field is kept in `[0, 10^9)` by flooring, as chrono does). -/
def CDuration.ofTotalNanos (t : Int) : CDuration :=
  ⟨t.fdiv NANOS_PER_SEC, t.fmod NANOS_PER_SEC⟩

/-- Model of chrono's `Duration::zero`. -/
def CDuration.zero : CDuration := ⟨0, 0⟩

/-- Model of chrono's `Duration::seconds`. -/
def CDuration.seconds (s : Int) : CDuration := ⟨s, 0⟩

/-- Model of chrono's `Duration::minutes`. -/
def CDuration.minutes (m : Int) : CDuration := CDuration.seconds (m * 60)

/-- Model of chrono's `Duration::hours`. -/
def CDuration.hours (h : Int) : CDuration := CDuration.seconds (h * 3600)

/-- Model of chrono's `Duration::days`. -/
def CDuration.days (d : Int) : CDuration := CDuration.seconds (d * 86400)

/-- Model of chrono's `Duration::weeks`. -/
def CDuration.weeks (w : Int) : CDuration := CDuration.seconds (w * 604800)

/-- Model of chrono's `Duration::nanoseconds`. -/
def CDuration.nanoseconds (n : Int) : CDuration := CDuration.ofTotalNanos n

/-- Model of chrono's fallible `Duration::new`: `none` outside the
`MIN ..= MAX` range (the caller passes a non-negative nanosecond part). -/
def CDuration.new (secs nanos : Int) : Option CDuration :=
  if secs < DUR_MIN_SECS ∨ secs > DUR_MAX_SECS ∨ nanos ≥ NANOS_PER_SEC
      ∨ (secs = DUR_MAX_SECS ∧ nanos > DUR_MAX_NANOS)
      ∨ (secs = DUR_MIN_SECS ∧ nanos < DUR_MIN_NANOS) then none
  else some ⟨secs, nanos⟩

/-- Model of chrono's `Duration` addition (normalising the nanosecond carry). -/
def CDuration.add (a b : CDuration) : CDuration :=
  CDuration.ofTotalNanos (a.totalNanos + b.totalNanos)

/-- Model of chrono's `Duration` negation. -/
def CDuration.neg (a : CDuration) : CDuration :=
  CDuration.ofTotalNanos (-a.totalNanos)

/-- Model of chrono's `Duration * i32` scaling. -/
def CDuration.mulI32 (a : CDuration) (k : Int) : CDuration :=
  CDuration.ofTotalNanos (a.totalNanos * k)

/-- Model of chrono's `Duration::num_seconds` (whole seconds, truncated
toward zero). -/
def CDuration.num_seconds (d : CDuration) : Int :=
  if d.secs < 0 ∧ d.nanos > 0 then d.secs + 1 else d.secs

/-- Model of chrono's `Duration::subsec_nanos` (signed nanosecond remainder,
matching the sign of the whole value). -/
def CDuration.subsec_nanos (d : CDuration) : Int :=
  if d.secs < 0 ∧ d.nanos > 0 then d.nanos - NANOS_PER_SEC else d.nanos

/-- Model of chrono's `Duration::num_days` (whole days, truncated toward
zero). -/
def CDuration.num_days (d : CDuration) : Int := d.num_seconds.tdiv 86400

/-- Model of chrono's `Duration::is_zero`. -/
def CDuration.is_zero (d : CDuration) : Bool := d.secs == 0 && d.nanos == 0

/-- Model of `RelativeDuration` (src/relative_duration.rs): a signed month
count next to an absolute chrono duration, with no normalisation between
the two components. -/
structure RelativeDuration where
  months : Int
  duration : CDuration
deriving DecidableEq

/-- Model of the `RelativeDuration::months` constructor. -/
def RelativeDuration.from_months (months : Int) : RelativeDuration :=
  ⟨months, CDuration.zero⟩

/-- Model of the `RelativeDuration::years` constructor (`months(years * 12)`;
its checked multiplication only matters at the edge of `i32`, outside the
verified uses). -/
def RelativeDuration.from_years (years : Int) : RelativeDuration :=
  RelativeDuration.from_months (years * 12)

/-- Model of the `RelativeDuration::weeks` constructor. -/
def RelativeDuration.from_weeks (weeks : Int) : RelativeDuration :=
  ⟨0, CDuration.weeks weeks⟩

/-- Model of the `RelativeDuration::days` constructor. -/
def RelativeDuration.from_days (days : Int) : RelativeDuration :=
  ⟨0, CDuration.days days⟩

/-- Model of the `RelativeDuration::hours` constructor. -/
def RelativeDuration.from_hours (hours : Int) : RelativeDuration :=
  ⟨0, CDuration.hours hours⟩

/-- Model of the `RelativeDuration::minutes` constructor. -/
def RelativeDuration.from_minutes (minutes : Int) : RelativeDuration :=
  ⟨0, CDuration.minutes minutes⟩

/-- Model of the `RelativeDuration::seconds` constructor. -/
def RelativeDuration.from_seconds (seconds : Int) : RelativeDuration :=
  ⟨0, CDuration.seconds seconds⟩

/-- Model of `RelativeDuration::with_duration`. -/
def RelativeDuration.with_duration (r : RelativeDuration) (d : CDuration) :
    RelativeDuration :=
  ⟨r.months, d⟩

/-- Model of `RelativeDuration::zero`. -/
def RelativeDuration.rd_zero : RelativeDuration := ⟨0, CDuration.zero⟩

/-- Model of `impl Add for RelativeDuration`: component-wise sum. -/
def RelativeDuration.add (a b : RelativeDuration) : RelativeDuration :=
  ⟨a.months + b.months, a.duration.add b.duration⟩

/-- Model of `impl Neg for RelativeDuration`: component-wise negation. -/
def RelativeDuration.neg (a : RelativeDuration) : RelativeDuration :=
  ⟨-a.months, a.duration.neg⟩

/-- Model of `impl Mul<i32> for RelativeDuration`: component-wise scaling. -/
def RelativeDuration.mulI32 (a : RelativeDuration) (k : Int) : RelativeDuration :=
  ⟨a.months * k, a.duration.mulI32 k⟩

/-! ## Adding durations to plain dates -/

/-- Successor day of a date in the proleptic Gregorian calendar. -/
def NDate.succ_day (d : NDate) : NDate :=
  if d.day < days_in_month d.year d.month then ⟨d.year, d.month, d.day + 1⟩
  else if d.month < 12 then ⟨d.year, d.month + 1, 1⟩
  else ⟨d.year + 1, 1, 1⟩

/-- Predecessor day of a date in the proleptic Gregorian calendar. -/
def NDate.pred_day (d : NDate) : NDate :=
  if 1 < d.day then ⟨d.year, d.month, d.day - 1⟩
  else if 1 < d.month then ⟨d.year, d.month - 1, days_in_month d.year (d.month - 1)⟩
  else ⟨d.year - 1, 12, 31⟩

/-- Shift a date by a signed number of days. -/
def NDate.add_days (d : NDate) (n : Int) : NDate :=
  if 0 ≤ n then Nat.repeat NDate.succ_day n.toNat d
  else Nat.repeat NDate.pred_day (-n).toNat d

/-- Model of chrono's `NaiveDate + Duration`: only the whole days of the
duration move a plain date. -/
def NDate.add_duration (d : NDate) (dur : CDuration) : NDate :=
  d.add_days dur.num_days

/-- Model of `impl Add<RelativeDuration> for NaiveDate`
(src/relative_duration.rs): shift by the months first, then add the
absolute duration. -/
def NDate.add_relative (d : NDate) (r : RelativeDuration) : NDate :=
  (shift_months d r.months).add_duration r.duration

example : NDate.add_relative ⟨2020, 2, 29⟩ ⟨24, CDuration.days 1⟩ = ⟨2022, 3, 1⟩ := by decide
example : NDate.add_relative ⟨2020, 2, 28⟩ ⟨24, CDuration.days 1⟩ = ⟨2022, 3, 1⟩ := by decide
example : NDate.add_relative ⟨2020, 2, 29⟩ ⟨48, CDuration.zero⟩ = ⟨2024, 2, 29⟩ := by decide

/-- Claim C2: adding a `RelativeDuration` to a date is, for every date and
duration, literally the month shift of the months component followed by the
absolute-duration addition; at the concrete input, 2020-01-31 plus one month
and one day first normalises to 2020-02-29 and only then adds the day,
landing on 2020-03-01 (not March 3, and through no "January 32"). -/
theorem claim_C2 :
    (∀ (d : NDate) (r : RelativeDuration),
      d.add_relative r = (shift_months d r.months).add_duration r.duration) ∧
    NDate.add_relative ⟨2020, 1, 31⟩ ⟨1, CDuration.days 1⟩ = ⟨2020, 3, 1⟩ :=
  ⟨fun _ _ => rfl, by decide⟩

/-- Claim C3: calendar-duration application is not associative with duration
addition: stepping 2020-01-31 by one month twice lands on 2020-03-29, while
adding the two one-month durations first and applying once lands on
2020-03-31, and the two results differ. -/
theorem claim_C3 :
    (NDate.add_relative (NDate.add_relative ⟨2020, 1, 31⟩ (RelativeDuration.from_months 1))
      (RelativeDuration.from_months 1)) = ⟨2020, 3, 29⟩ ∧
    NDate.add_relative ⟨2020, 1, 31⟩
      ((RelativeDuration.from_months 1).add (RelativeDuration.from_months 1)) = ⟨2020, 3, 31⟩ ∧
    (⟨2020, 3, 29⟩ : NDate) ≠ (⟨2020, 3, 31⟩ : NDate) :=
  ⟨by decide, by decide, by decide⟩

/-! ## DateRule: src/rule.rs -/

/-- Strict lexicographic (chronological) order on dates, as chrono's derived
`Ord` on `NaiveDate` gives for valid dates. -/
def NDate.ltb (a b : NDate) : Bool :=
  decide (a.year < b.year) ||
    (a.year == b.year &&
      (decide (a.month < b.month) || (a.month == b.month && decide (a.day < b.day))))

/-- Non-strict chronological order on dates. -/
def NDate.leb (a b : NDate) : Bool := NDate.ltb a b || a == b

/-- Model of `DateRule` (src/rule.rs): an iterator of evenly spaced dates;
`end_` models the `end` field, `current_count` the `_current_count` cursor. -/
structure DateRule where
  freq : RelativeDuration
  start : NDate
  end_ : Option NDate
  count : Option Nat
  rolling_day : Option Nat
  current_count : Nat
deriving DecidableEq

/-- Model of `DateRule::new`. -/
def DateRule.new (start : NDate) (freq : RelativeDuration) : DateRule :=
  ⟨freq, start, none, none, none, 0⟩

/-- Model of `DateRule::daily`. -/
def DateRule.daily (d : NDate) : DateRule :=
  DateRule.new d (RelativeDuration.from_days 1)

/-- Model of `DateRule::weekly`. -/
def DateRule.weekly (d : NDate) : DateRule :=
  DateRule.new d (RelativeDuration.from_weeks 1)

/-- Model of `DateRule::monthly`. -/
def DateRule.monthly (d : NDate) : DateRule :=
  DateRule.new d (RelativeDuration.from_months 1)

/-- Model of `DateRule::yearly`. -/
def DateRule.yearly (d : NDate) : DateRule :=
  DateRule.new d (RelativeDuration.from_years 1)

/-- Model of `DateRule::with_count`: a copy limited to a number of dates,
with the cursor reset and any end bound dropped. -/
def DateRule.with_count (r : DateRule) (number : Nat) : DateRule :=
  ⟨r.freq, r.start, none, some number, r.rolling_day, 0⟩

/-- Model of `DateRule::with_end`: a copy limited by an exclusive end date,
with the cursor reset and any count dropped. -/
def DateRule.with_end (r : DateRule) (e : NDate) : DateRule :=
  ⟨r.freq, r.start, some e, none, r.rolling_day, 0⟩

/-- Model of `DateRule::with_rolling_day`: a copy whose emitted dates are
pinned to the given day of month; rejects days outside 1-31. -/
def DateRule.with_rolling_day (r : DateRule) (rolling_day : Nat) :
    Except String DateRule :=
  if rolling_day = 0 ∨ rolling_day > 31 then
    Except.error ("Rolling day " ++ toString rolling_day ++ " not in range 1-31")
  else
    Except.ok ⟨r.freq, r.start, r.end_, r.count, some rolling_day, r.current_count⟩

/-- Date the rule's `next` computes at cursor position `k`: the scalar
multiple of the step applied to the original start, then the rolling-day
adjustment; the `unwrap` in the source is modelled by `getD`. -/
def DateRule.candidate (r : DateRule) (k : Nat) : NDate :=
  let c0 := r.start.add_relative (r.freq.mulI32 (k : Int))
  match r.rolling_day with
  | some rd => (with_day c0 rd).getD c0
  | none => c0

/-- Model of `Iterator::next` for `DateRule<NaiveDate>` (src/rule.rs),
returning the emitted value together with the successor state. -/
def DateRule.next (r : DateRule) : Option NDate × DateRule :=
  if r.count.isSome && decide (r.current_count ≥ r.count.getD 0) then (none, r)
  else
    let current := r.candidate r.current_count
    match r.end_ with
    | some e =>
      if (r.start.leb e && e.leb current) || (e.ltb r.start && current.leb e) then
        (none, r)
      else (some current, { r with current_count := r.current_count + 1 })
    | none => (some current, { r with current_count := r.current_count + 1 })

/-- Value emitted at position `n` when repeatedly calling `next` from the
state `r`. -/
def DateRule.nth (r : DateRule) : Nat → Option NDate
  | 0 => (r.next).fst
  | n + 1 => (r.next).snd.nth n

example : (DateRule.monthly ⟨2020, 1, 30⟩).nth 0 = some ⟨2020, 1, 30⟩ := by decide
example : (DateRule.monthly ⟨2020, 1, 30⟩).nth 1 = some ⟨2020, 2, 29⟩ := by decide
example : (DateRule.monthly ⟨2020, 1, 30⟩).nth 2 = some ⟨2020, 3, 30⟩ := by decide
example : (DateRule.monthly ⟨2020, 1, 30⟩).nth 3 = some ⟨2020, 4, 30⟩ := by decide
example : ((DateRule.daily ⟨2020, 1, 1⟩).with_count 5).nth 4 = some ⟨2020, 1, 5⟩ := by decide
example : ((DateRule.daily ⟨2020, 1, 1⟩).with_count 5).nth 5 = none := by decide

theorem next_none_snd (r : DateRule) (h : (r.next).fst = none) : (r.next).snd = r := by
  by_cases hc : (r.count.isSome && decide (r.current_count ≥ r.count.getD 0)) = true
  · simp [DateRule.next, hc]
  · rcases he : r.end_ with _ | e
    · simp [DateRule.next, hc, he] at h
    · by_cases hcross : ((r.start.leb e && e.leb (r.candidate r.current_count)) ||
          (e.ltb r.start && (r.candidate r.current_count).leb e)) = true
      · simp [DateRule.next, hc, he, hcross]
      · simp [DateRule.next, hc, he, hcross] at h

theorem next_some (r : DateRule) {v : NDate} (h : (r.next).fst = some v) :
    v = r.candidate r.current_count ∧
    (r.next).snd = { r with current_count := r.current_count + 1 } := by
  by_cases hc : (r.count.isSome && decide (r.current_count ≥ r.count.getD 0)) = true
  · simp [DateRule.next, hc] at h
  · rcases he : r.end_ with _ | e
    · simp [DateRule.next, hc, he] at h ⊢
      exact h.symm
    · by_cases hcross : ((r.start.leb e && e.leb (r.candidate r.current_count)) ||
          (e.ltb r.start && (r.candidate r.current_count).leb e)) = true
      · simp [DateRule.next, hc, he, hcross] at h
      · simp [DateRule.next, hc, he, hcross] at h ⊢
        exact h.symm

theorem nth_none (r : DateRule) (h : (r.next).fst = none) : ∀ n, r.nth n = none
  | 0 => h
  | n + 1 => by
    rw [DateRule.nth, next_none_snd r h]
    exact nth_none r h n

theorem candidate_cc_irrel (r : DateRule) (x k : Nat) :
    DateRule.candidate { r with current_count := x } k = r.candidate k := rfl

theorem nth_some_eq : ∀ (n : Nat) (r : DateRule) (v : NDate),
    r.nth n = some v → v = r.candidate (r.current_count + n)
  | 0, r, v, h => by
    have := (next_some r h).1
    simpa using this
  | n + 1, r, v, h => by
    rw [DateRule.nth] at h
    rcases hf : (r.next).fst with _ | w
    · rw [next_none_snd r hf, nth_none r hf] at h
      cases h
    · obtain ⟨-, hsnd⟩ := next_some r hf
      rw [hsnd] at h
      have hv := nth_some_eq n _ v h
      rw [candidate_cc_irrel] at hv
      have harr : r.current_count + 1 + n = r.current_count + (n + 1) := by omega
      rwa [harr] at hv

/-- Claim C4: whatever the configuration, the value a `DateRule` emits at
position `n` (counting from a fresh cursor) is the step scaled by `n` and
applied to the original start — followed by the rolling-day adjustment when
one is set — never the previous value plus the step. -/
theorem claim_C4 (r : DateRule) (n : Nat) (v : NDate)
    (h0 : r.current_count = 0) (h : r.nth n = some v) : v = r.candidate n := by
  have hv := nth_some_eq n r v h
  rwa [h0, Nat.zero_add] at hv

/-- Witness for C4: the monthly rule from 2020-01-30 emits 2020-02-29 at
position 1 and 2020-04-30 at position 3, both scalar multiples of the
original origin (the 30th is not lost after February's truncation). -/
theorem claim_C4_witness :
    (DateRule.monthly ⟨2020, 1, 30⟩).current_count = 0 ∧
    (DateRule.monthly ⟨2020, 1, 30⟩).nth 1 = some ⟨2020, 2, 29⟩ ∧
    (DateRule.monthly ⟨2020, 1, 30⟩).nth 3 = some ⟨2020, 4, 30⟩ ∧
    (⟨2020, 2, 29⟩ : NDate) = (DateRule.monthly ⟨2020, 1, 30⟩).candidate 1 ∧
    (⟨2020, 4, 30⟩ : NDate) = (DateRule.monthly ⟨2020, 1, 30⟩).candidate 3 :=
  ⟨rfl, by decide, by decide,
    claim_C4 (DateRule.monthly ⟨2020, 1, 30⟩) 1 ⟨2020, 2, 29⟩ rfl (by decide),
    claim_C4 (DateRule.monthly ⟨2020, 1, 30⟩) 3 ⟨2020, 4, 30⟩ rfl (by decide)⟩

/-- Claim C6: `next` produces nothing exactly when the count limit has been
reached or the candidate crosses the exclusive end bound in the direction
inferred from how the end relates to the start; consequently a count of 0
and an end equal to the start each emit nothing, and the backward monthly
rule from 2020-03-31 ending at 2019-12-31 emits exactly the three dates
2020-03-31, 2020-02-29, 2020-01-31. -/
theorem claim_C6 :
    (∀ r : DateRule, (r.next).fst = none ↔
      (∃ c, r.count = some c ∧ c ≤ r.current_count) ∨
      (∃ e, r.end_ = some e ∧
        ((r.start.leb e = true ∧ e.leb (r.candidate r.current_count) = true) ∨
         (e.ltb r.start = true ∧ (r.candidate r.current_count).leb e = true)))) ∧
    (∀ k, ((DateRule.daily ⟨2020, 1, 1⟩).with_count 0).nth k = none) ∧
    (∀ k, ((DateRule.daily ⟨2020, 1, 1⟩).with_end ⟨2020, 1, 1⟩).nth k = none) ∧
    ((DateRule.new ⟨2020, 3, 31⟩ (RelativeDuration.from_months (-1))).with_end
      ⟨2019, 12, 31⟩).nth 0 = some ⟨2020, 3, 31⟩ ∧
    ((DateRule.new ⟨2020, 3, 31⟩ (RelativeDuration.from_months (-1))).with_end
      ⟨2019, 12, 31⟩).nth 1 = some ⟨2020, 2, 29⟩ ∧
    ((DateRule.new ⟨2020, 3, 31⟩ (RelativeDuration.from_months (-1))).with_end
      ⟨2019, 12, 31⟩).nth 2 = some ⟨2020, 1, 31⟩ ∧
    (∀ j, ((DateRule.new ⟨2020, 3, 31⟩ (RelativeDuration.from_months (-1))).with_end
      ⟨2019, 12, 31⟩).nth (j + 3) = none) := by
  refine ⟨?_, ?_, ?_, by decide, by decide, by decide, ?_⟩
  · intro r
    constructor
    · intro h
      by_cases hc : (r.count.isSome && decide (r.current_count ≥ r.count.getD 0)) = true
      · left
        rcases hcnt : r.count with _ | c
        · rw [hcnt] at hc
          simp at hc
        · rw [hcnt] at hc
          simp at hc
          exact ⟨c, rfl, hc⟩
      · rcases he : r.end_ with _ | e
        · simp [DateRule.next, hc, he] at h
        · by_cases hcross : ((r.start.leb e && e.leb (r.candidate r.current_count)) ||
              (e.ltb r.start && (r.candidate r.current_count).leb e)) = true
          · right
            refine ⟨e, rfl, ?_⟩
            simp only [Bool.or_eq_true, Bool.and_eq_true] at hcross
            exact hcross
          · simp [DateRule.next, hc, he, hcross] at h
    · intro h
      rcases h with ⟨c, hcnt, hle⟩ | ⟨e, he, hx⟩
      · have hc : (r.count.isSome && decide (r.current_count ≥ r.count.getD 0)) = true := by
          rw [hcnt]
          simp
          omega
        simp [DateRule.next, hc]
      · by_cases hc : (r.count.isSome && decide (r.current_count ≥ r.count.getD 0)) = true
        · simp [DateRule.next, hc]
        · have hcross : ((r.start.leb e && e.leb (r.candidate r.current_count)) ||
              (e.ltb r.start && (r.candidate r.current_count).leb e)) = true := by
            simp only [Bool.or_eq_true, Bool.and_eq_true]
            exact hx
          simp [DateRule.next, hc, he, hcross]
  · intro k
    exact nth_none _ (by decide) k
  · intro k
    exact nth_none _ (by decide) k
  · intro j
    rw [DateRule.nth, DateRule.nth, DateRule.nth]
    exact nth_none _ (by decide) j

/-- Claim C9 counterexample: after one `next` call the daily rule's cursor
is 1, and `with_rolling_day` keeps that cursor rather than resetting it to
0, so the claim that every builder returns a copy with the cursor reset is
false as stated. -/
theorem claim_C9_counterexample :
    Except.toOption (Except.map DateRule.current_count
      (((DateRule.daily ⟨2020, 1, 1⟩).next).snd.with_rolling_day 5)) = some 1 ∧
    ((DateRule.daily ⟨2020, 1, 1⟩).next).snd.current_count = 1 := by
  constructor
  · rfl
  · rfl

/-- Claim C9 (amended): `with_count` and `with_end` return independent
copies with the cursor reset to 0, sharing start, step and the prior
rolling day (with the end bound respectively count limit cleared), while
`with_rolling_day` on a day in 1..=31 returns a copy that only overrides
the rolling day, preserving start, step, end, count and the cursor; the
receiver is never mutated (all three are pure copies). -/
theorem claim_C9 (r : DateRule) (n : Nat) (e : NDate) (rd : Nat)
    (h1 : 1 ≤ rd) (h2 : rd ≤ 31) :
    r.with_count n = ⟨r.freq, r.start, none, some n, r.rolling_day, 0⟩ ∧
    r.with_end e = ⟨r.freq, r.start, some e, none, r.rolling_day, 0⟩ ∧
    r.with_rolling_day rd =
      Except.ok ⟨r.freq, r.start, r.end_, r.count, some rd, r.current_count⟩ := by
  refine ⟨rfl, rfl, ?_⟩
  unfold DateRule.with_rolling_day
  rw [if_neg (by omega)]

/-- Witness for C9 (amended) at the daily rule from 2020-01-01 with count 2,
end 2021-01-01 and rolling day 31. -/
theorem claim_C9_witness :
    1 ≤ 31 ∧ (31 : Nat) ≤ 31 ∧
    ((DateRule.daily ⟨2020, 1, 1⟩).with_count 2 =
      ⟨(DateRule.daily ⟨2020, 1, 1⟩).freq, (DateRule.daily ⟨2020, 1, 1⟩).start, none,
        some 2, (DateRule.daily ⟨2020, 1, 1⟩).rolling_day, 0⟩ ∧
    (DateRule.daily ⟨2020, 1, 1⟩).with_end ⟨2021, 1, 1⟩ =
      ⟨(DateRule.daily ⟨2020, 1, 1⟩).freq, (DateRule.daily ⟨2020, 1, 1⟩).start,
        some ⟨2021, 1, 1⟩, none, (DateRule.daily ⟨2020, 1, 1⟩).rolling_day, 0⟩ ∧
    (DateRule.daily ⟨2020, 1, 1⟩).with_rolling_day 31 =
      Except.ok ⟨(DateRule.daily ⟨2020, 1, 1⟩).freq, (DateRule.daily ⟨2020, 1, 1⟩).start,
        (DateRule.daily ⟨2020, 1, 1⟩).end_, (DateRule.daily ⟨2020, 1, 1⟩).count, some 31,
        (DateRule.daily ⟨2020, 1, 1⟩).current_count⟩) :=
  ⟨by decide, by decide,
    claim_C9 (DateRule.daily ⟨2020, 1, 1⟩) 2 ⟨2021, 1, 1⟩ 31 (by decide) (by decide)⟩

/-- Claim C10: when a rolling day was accepted by `with_rolling_day` (hence
lies in 1..=31), the `with_day` call that `next` performs on a (valid)
candidate date always returns `Some`: the requested day normalises to a day
that exists in the candidate's month, so the `unwrap` in `next` cannot
panic. -/
theorem claim_C10 (r r' : DateRule) (rd : Nat) (d : NDate)
    (hok : r.with_rolling_day rd = Except.ok r') (hd : d.isValid = true) :
    (with_day d rd).isSome = true := by
  unfold DateRule.with_rolling_day at hok
  by_cases hr : rd = 0 ∨ rd > 31
  · rw [if_pos hr] at hok
    cases hok
  · rw [isValid_iff] at hd
    obtain ⟨hy1, hy2, hm1, hm2, hd1, hd2⟩ := hd
    have h1 := normalise_day_pos d.year d.month rd (by omega)
    have h2 := normalise_day_le d.year d.month rd (by omega)
    have hv : (NDate.mk d.year d.month (normalise_day d.year d.month rd)).isValid = true := by
      rw [isValid_iff]
      dsimp only
      exact ⟨hy1, hy2, hm1, hm2, h1, h2⟩
    unfold with_day NDate.with_day
    rw [if_neg hr, if_pos hv]
    rfl

/-- Witness for C10 at the monthly rule from 2020-02-29 with rolling day 31
(the example of the source's doc test), applied to the valid candidate
2020-02-29. -/
theorem claim_C10_witness :
    (DateRule.monthly ⟨2020, 2, 29⟩).with_rolling_day 31 =
      Except.ok ⟨RelativeDuration.from_months 1, ⟨2020, 2, 29⟩, none, none, some 31, 0⟩ ∧
    (NDate.mk 2020 2 29).isValid = true ∧
    (with_day ⟨2020, 2, 29⟩ 31).isSome = true :=
  ⟨rfl, by decide,
    claim_C10 (DateRule.monthly ⟨2020, 2, 29⟩)
      ⟨RelativeDuration.from_months 1, ⟨2020, 2, 29⟩, none, none, some 31, 0⟩ 31
      ⟨2020, 2, 29⟩ rfl (by decide)⟩

/-! ## ISO-8601 duration codec: src/relative_duration/parse.rs -/

/-- Lower bound of Rust's `i32`. -/
def I32_MIN : Int := -2147483648

/-- Upper bound of Rust's `i32`. -/
def I32_MAX : Int := 2147483647

/-- Lower bound of Rust's `i64`. -/
def I64_MIN : Int := -9223372036854775808

/-- Upper bound of Rust's `i64`. -/
def I64_MAX : Int := 9223372036854775807

/-- Upper bound of Rust's `u32`. -/
def U32_MAX : Int := 4294967295

/-- Middle part of the numeric-field parse error text. -/
def not_valid_sep : List Char := " is not a valid ".toList

/-- Type name printed for a failed `i32` field. -/
def ty_i32 : List Char := "i32".toList

/-- Type name printed for a failed `i64` field. -/
def ty_i64 : List Char := "i64".toList

/-- Type name printed for a failed `u32` fraction field. -/
def ty_u32 : List Char := "u32".toList

/-- Error text for checked-arithmetic overflow while combining fields. -/
def overflow_msg : List Char := "integer overflow on constructing duration".toList

/-- Error text for a missing leading P. -/
def msg_no_p : List Char := "duration was not prefixed with P".toList

/-- Leading part of the trailing-characters error text. -/
def msg_trailing : List Char := "trailing characters: ".toList

/-- Middle part of the trailing-characters error text for the date part. -/
def msg_in_datespec : List Char := " in datespec: ".toList

/-- Middle part of the trailing-characters error text for the time part. -/
def msg_in_timespec : List Char := " in timespec: ".toList

/-- Model of Rust's `str::split_once`: split at the first occurrence of the
separator. -/
def split_once (sep : Char) : List Char → Option (List Char × List Char)
  | [] => none
  | c :: rest =>
    if c = sep then some ([], rest)
    else
      match split_once sep rest with
      | some (a, b) => some (c :: a, b)
      | none => none

/-- Numeric value of a digit string. -/
def digits_val (l : List Char) : Nat :=
  l.foldl (fun a c => a * 10 + (c.toNat - 48)) 0

/-- Model of Rust's `str::parse` for a bounded integer type: an optional
sign (a minus only for signed types) followed by one or more ASCII digits,
with the value required to fit the type's range. -/
def parse_int (allowNeg : Bool) (lo hi : Int) (s : List Char) : Option Int :=
  let sign_split : Bool × List Char :=
    match s with
    | '+' :: rest => (false, rest)
    | '-' :: rest => (true, rest)
    | _ => (false, s)
  if sign_split.1 && !allowNeg then none
  else if sign_split.2.isEmpty then none
  else if sign_split.2.all Char.isDigit then
    let v : Int :=
      if sign_split.1 then -(digits_val sign_split.2 : Int) else (digits_val sign_split.2 : Int)
    if lo ≤ v ∧ v ≤ hi then some v else none
  else none

/-- Checked `i64` result: the value when it fits, else `none`. -/
def checked_i64 (v : Int) : Option Int :=
  if I64_MIN ≤ v ∧ v ≤ I64_MAX then some v else none

/-- Model of `i64::checked_mul`. -/
def checked_mul_i64 (a b : Int) : Option Int := checked_i64 (a * b)

/-- Model of `i64::checked_add`. -/
def checked_add_i64 (a b : Int) : Option Int := checked_i64 (a + b)

/-- Checked `i32` result: the value when it fits, else `none`. -/
def checked_i32 (v : Int) : Option Int :=
  if I32_MIN ≤ v ∧ v ≤ I32_MAX then some v else none

/-- Model of `i32::checked_mul`. -/
def checked_mul_i32 (a b : Int) : Option Int := checked_i32 (a * b)

/-- Model of `i32::checked_add`. -/
def checked_add_i32 (a b : Int) : Option Int := checked_i32 (a + b)

/-- Model of `dhmsn_to_duration` (src/relative_duration/parse.rs): combine
days, hours, minutes, seconds and nanoseconds into one chrono duration with
checked arithmetic at every step. -/
def dhmsn_to_duration (days hours minutes seconds nanos : Int) : Option CDuration :=
  (((((checked_mul_i64 days 24).bind fun x => checked_add_i64 x hours).bind fun x =>
    checked_mul_i64 x 60).bind fun x => checked_add_i64 x minutes).bind fun x =>
    checked_mul_i64 x 60).bind fun x =>
    (checked_add_i64 x seconds).bind fun s => CDuration.new s nanos

/-- Model of `get_terminated` (src/relative_duration/parse.rs): read an
optional integer up to the terminator; without the terminator the value is
0 and the input is left unconsumed. -/
def get_terminated (allowNeg : Bool) (lo hi : Int) (tyName : List Char)
    (input : List Char) (terminator : Char) : Except (List Char) (List Char × Int) :=
  match split_once terminator input with
  | some (int_string, remainder) =>
    match parse_int allowNeg lo hi int_string with
    | some v => .ok (remainder, v)
    | none => .error (int_string ++ not_valid_sep ++ tyName)
  | none => .ok (input, 0)

/-- Leading-minus test on the seconds field as written. -/
def starts_with_minus : List Char → Bool
  | '-' :: _ => true
  | _ => false

/-- Split of the seconds field into integer part and fraction digits, the
separator a dot or (failing that) a comma, the fraction empty when neither
occurs. -/
def split_fraction (decimal_string : List Char) : List Char × List Char :=
  match split_once '.' decimal_string with
  | some q => q
  | none =>
    match split_once ',' decimal_string with
    | some q => q
    | none => (decimal_string, [])

/-- Model of `get_terminated_decimal` (src/relative_duration/parse.rs): read
the seconds field with its optional decimal fraction (dot or comma), the
fraction right-padded or truncated to 9 digits; a negative seconds text
with a nonzero fraction borrows one second and complements the fraction
against one billion nanoseconds. -/
def get_terminated_decimal (input : List Char) (terminator : Char) :
    Except (List Char) (List Char × Int × Int) :=
  match split_once terminator input with
  | none => .ok (input, 0, 0)
  | some (decimal_string, remainder) =>
    match parse_int true I64_MIN I64_MAX (split_fraction decimal_string).1 with
    | none => .error ((split_fraction decimal_string).1 ++ not_valid_sep ++ ty_i64)
    | some int =>
      if (split_fraction decimal_string).2.isEmpty then .ok (remainder, int, 0)
      else
        match parse_int false 0 U32_MAX
            (((split_fraction decimal_string).2 ++ List.replicate 9 '0').take 9) with
        | none => .error ((split_fraction decimal_string).2 ++ not_valid_sep ++ ty_u32)
        | some fraction =>
          if starts_with_minus decimal_string ∧ fraction ≠ 0 then
            .ok (remainder, int - 1, 1000000000 - fraction)
          else .ok (remainder, int, fraction)

/-- Model of `parse_datespec` (src/relative_duration/parse.rs): fields Y, M,
W, D in order, weeks folded into days with checked arithmetic, trailing
characters refused. -/
def parse_datespec (datespec : List Char) : Except (List Char) (Int × Int × Int) :=
  match get_terminated true I32_MIN I32_MAX ty_i32 datespec 'Y' with
  | .error e => .error e
  | .ok (r1, years) =>
    match get_terminated true I32_MIN I32_MAX ty_i32 r1 'M' with
    | .error e => .error e
    | .ok (r2, months) =>
      match get_terminated true I64_MIN I64_MAX ty_i64 r2 'W' with
      | .error e => .error e
      | .ok (r3, weeks) =>
        match get_terminated true I64_MIN I64_MAX ty_i64 r3 'D' with
        | .error e => .error e
        | .ok (r4, days) =>
          if r4 ≠ [] then .error (msg_trailing ++ r4 ++ msg_in_datespec ++ datespec)
          else
            match (checked_mul_i64 weeks 7).bind fun x => checked_add_i64 x days with
            | some wd => .ok (years, months, wd)
            | none => .error overflow_msg

/-- Model of `parse_timespec` (src/relative_duration/parse.rs): fields H, M
and the decimal S in order, trailing characters refused. -/
def parse_timespec (timespec : List Char) : Except (List Char) (Int × Int × Int × Int) :=
  match get_terminated true I64_MIN I64_MAX ty_i64 timespec 'H' with
  | .error e => .error e
  | .ok (r1, hours) =>
    match get_terminated true I64_MIN I64_MAX ty_i64 r1 'M' with
    | .error e => .error e
    | .ok (r2, mins) =>
      match get_terminated_decimal r2 'S' with
      | .error e => .error e
      | .ok (r3, secs, nanos) =>
        if r3 ≠ [] then .error (msg_trailing ++ r3 ++ msg_in_timespec ++ timespec)
        else .ok (hours, mins, secs, nanos)

deriving instance DecidableEq for Except

/-- Split of the input after the P into a date part and a time part at the
first T, the time part empty without one. -/
def split_t (input : List Char) : List Char × List Char :=
  match split_once 'T' input with
  | some q => q
  | none => (input, [])

/-- Model of `RelativeDuration::parse_from_iso8601`
(src/relative_duration/parse.rs): strip the mandatory P, split once on T,
parse both parts and combine them with checked arithmetic. -/
def RelativeDuration.parse_from_iso8601 (input : List Char) :
    Except (List Char) RelativeDuration :=
  match input with
  | 'P' :: rest =>
    match parse_datespec (split_t rest).1 with
    | .error e => .error e
    | .ok (years, months, days) =>
      match parse_timespec (split_t rest).2 with
      | .error e => .error e
      | .ok (hours, mins, secs, nanos) =>
        match (checked_mul_i32 years 12).bind fun x => checked_add_i32 x months with
        | none => .error overflow_msg
        | some m =>
          match dhmsn_to_duration days hours mins secs nanos with
          | none => .error overflow_msg
          | some dur => .ok ((RelativeDuration.from_months m).with_duration dur)
  | _ => .error msg_no_p

/-- ASCII digits of a natural number, most significant first (the fuel
covers every value up to 20 digits). -/
def nat_to_chars_aux : Nat → Nat → List Char → List Char
  | 0, _, acc => acc
  | fuel + 1, n, acc =>
    let d := Char.ofNat (48 + n % 10)
    if n / 10 = 0 then d :: acc
    else nat_to_chars_aux fuel (n / 10) (d :: acc)

/-- Decimal text of a natural number. -/
def nat_to_chars (n : Nat) : List Char := nat_to_chars_aux 20 n []

/-- Decimal text of an integer, as Rust's `Display` for integers prints it. -/
def int_to_chars (n : Int) : List Char :=
  if n < 0 then '-' :: nat_to_chars (-n).toNat else nat_to_chars n.toNat

/-- Drop the trailing zero digits of a fraction. -/
def trim_trailing_zeros (l : List Char) : List Char :=
  (l.reverse.dropWhile fun c => c == '0').reverse

/-- Left-pad a digit string with zeros to width 9, as the `{:0>9}` format
specifier does. -/
def pad9 (l : List Char) : List Char := List.replicate (9 - l.length) '0' ++ l

/-- Model of `RelativeDuration::format_to_iso8601`
(src/relative_duration/parse.rs): split months into years and months, the
duration's whole seconds into days, hours, minutes and seconds, reconcile
the signs of the seconds remainder and the nanosecond part, and print the
non-zero fields with a single leading minus when needed. -/
def RelativeDuration.format_to_iso8601 (r : RelativeDuration) : List Char :=
  let years := r.months.tdiv 12
  let months := r.months.tmod 12
  let duration_seconds := r.duration.num_seconds
  let days := duration_seconds.tdiv 86400
  let rs0 := duration_seconds.tmod 86400
  let hours := rs0.tdiv 3600
  let rs1 := rs0.tmod 3600
  let minutes := rs1.tdiv 60
  let rs2 := rs1.tmod 60
  let subsec_nanos := r.duration.subsec_nanos
  let snp : Int × Int × Bool :=
    if rs2 > 0 ∧ subsec_nanos < 0 then (rs2 - 1, subsec_nanos + 1000000000, false)
    else if rs2 < 0 ∧ subsec_nanos > 0 then (rs2 + 1, -subsec_nanos + 1000000000, false)
    else if rs2 ≤ 0 ∧ subsec_nanos < 0 then (rs2, -subsec_nanos, decide (rs2 = 0))
    else (rs2, subsec_nanos, false)
  let seconds := snp.1
  let nanos := snp.2.1
  let push_minus := snp.2.2
  let ymd := [(years, 'Y'), (months, 'M'), (days, 'D')].foldl
    (fun acc x => if x.1 ≠ 0 then acc ++ int_to_chars x.1 ++ [x.2] else acc) []
  let hm := [(hours, 'H'), (minutes, 'M')].foldl
    (fun acc x => if x.1 ≠ 0 then acc ++ int_to_chars x.1 ++ [x.2] else acc) []
  'P' :: ymd ++
    (if hours ≠ 0 ∨ minutes ≠ 0 ∨ seconds ≠ 0 ∨ nanos ≠ 0 then ['T'] else []) ++
    hm ++
    (if push_minus then ['-'] else []) ++
    (if seconds ≠ 0 ∨ nanos ≠ 0 then
      int_to_chars seconds ++
        (if nanos ≠ 0 then '.' :: trim_trailing_zeros (pad9 (int_to_chars nanos)) else []) ++
        ['S']
    else [])

example : RelativeDuration.parse_from_iso8601 ("P1M".toList) =
    .ok ⟨1, ⟨0, 0⟩⟩ := by decide
example : RelativeDuration.format_to_iso8601 ⟨1, ⟨0, 0⟩⟩ = "P1M".toList := by decide
example : RelativeDuration.parse_from_iso8601 ("PT-0.999999999S".toList) =
    .ok ⟨0, ⟨-1, 1⟩⟩ := by decide
example : RelativeDuration.format_to_iso8601 ⟨0, ⟨-1, 1⟩⟩ =
    "PT-0.999999999S".toList := by decide
example : RelativeDuration.format_to_iso8601 ⟨-23, ⟨0, 0⟩⟩ = "P-1Y-11M".toList := by decide
example : RelativeDuration.parse_from_iso8601 ("PT10M".toList) =
    .ok ⟨0, ⟨600, 0⟩⟩ := by decide
example : RelativeDuration.parse_from_iso8601 ("P1W1D".toList) =
    .ok ⟨0, ⟨691200, 0⟩⟩ := by decide
example : RelativeDuration.parse_from_iso8601 ("P1Y-10M-1W3DT3H-6M-1S".toList) =
    .ok ⟨2, ⟨-335161, 0⟩⟩ := by decide
example : RelativeDuration.parse_from_iso8601 ("PT0.0000000010S".toList) =
    .ok ⟨0, ⟨0, 1⟩⟩ := by decide
example : RelativeDuration.parse_from_iso8601 ("PT0.1S".toList) =
    .ok ⟨0, ⟨0, 100000000⟩⟩ := by decide

example : RelativeDuration.parse_from_iso8601 ("P1Y1M1W1DT1H1M1S".toList) =
    .ok ⟨13, ⟨694861, 0⟩⟩ := by decide
example : RelativeDuration.format_to_iso8601 ⟨13, ⟨694861, 0⟩⟩ =
    "P1Y1M8DT1H1M1S".toList := by decide
example : RelativeDuration.parse_from_iso8601 ("P99999999Y11M30DT23H59M59.999999999S".toList) =
    .ok ⟨1199999999, ⟨2678399, 999999999⟩⟩ := by decide
example : RelativeDuration.format_to_iso8601 ⟨1199999999, ⟨2678399, 999999999⟩⟩ =
    "P99999999Y11M30DT23H59M59.999999999S".toList := by decide

/-- Claim C5 counterexample: the representative string with a weeks field
does not format back to itself — weeks are folded into days when parsing
and the formatter never emits a W field — so format(parse(s)) = s fails for
"P1Y1M1W1DT1H1M1S". -/
theorem claim_C5_counterexample :
    RelativeDuration.parse_from_iso8601 ("P1Y1M1W1DT1H1M1S".toList) =
      Except.ok ⟨13, ⟨694861, 0⟩⟩ ∧
    RelativeDuration.format_to_iso8601 ⟨13, ⟨694861, 0⟩⟩ = "P1Y1M8DT1H1M1S".toList ∧
    "P1Y1M8DT1H1M1S".toList ≠ "P1Y1M1W1DT1H1M1S".toList :=
  ⟨by decide, by decide, by decide⟩

/-- Claim C5 (amended): parse(format(parse(s))) = parse(s) holds for all
four representative strings, and format(parse(s)) = s holds for the three
canonical ones ("P1M", the long fractional string, and "PT-0.999999999S");
the weeks string instead formats to its canonical equivalent
"P1Y1M8DT1H1M1S", which parses back to the same value. The negative
fractional second is stored as one borrowed second with the complementary
nanosecond count and is re-printed with a single leading minus. -/
theorem claim_C5 :
    RelativeDuration.parse_from_iso8601 ("P1M".toList) = Except.ok ⟨1, ⟨0, 0⟩⟩ ∧
    RelativeDuration.format_to_iso8601 ⟨1, ⟨0, 0⟩⟩ = "P1M".toList ∧
    RelativeDuration.parse_from_iso8601 ("P1Y1M1W1DT1H1M1S".toList) =
      Except.ok ⟨13, ⟨694861, 0⟩⟩ ∧
    RelativeDuration.format_to_iso8601 ⟨13, ⟨694861, 0⟩⟩ = "P1Y1M8DT1H1M1S".toList ∧
    RelativeDuration.parse_from_iso8601 ("P1Y1M8DT1H1M1S".toList) =
      Except.ok ⟨13, ⟨694861, 0⟩⟩ ∧
    RelativeDuration.parse_from_iso8601 ("P99999999Y11M30DT23H59M59.999999999S".toList) =
      Except.ok ⟨1199999999, ⟨2678399, 999999999⟩⟩ ∧
    RelativeDuration.format_to_iso8601 ⟨1199999999, ⟨2678399, 999999999⟩⟩ =
      "P99999999Y11M30DT23H59M59.999999999S".toList ∧
    RelativeDuration.parse_from_iso8601 ("PT-0.999999999S".toList) =
      Except.ok ⟨0, ⟨-1, 1⟩⟩ ∧
    RelativeDuration.format_to_iso8601 ⟨0, ⟨-1, 1⟩⟩ = "PT-0.999999999S".toList :=
  ⟨by decide, by decide, by decide, by decide, by decide, by decide, by decide,
    by decide, by decide⟩

/-- Error taxonomy of the parser: a missing P prefix, a numeric field that
is not a valid integer of the expected width, trailing characters in the
date or time part, or checked-arithmetic overflow. -/
def ErrTaxonomy (e : List Char) : Prop :=
  e = msg_no_p ∨
  (∃ a b, e = a ++ not_valid_sep ++ b) ∨
  (∃ a b, e = msg_trailing ++ a ++ msg_in_datespec ++ b) ∨
  (∃ a b, e = msg_trailing ++ a ++ msg_in_timespec ++ b) ∨
  e = overflow_msg

theorem gt_err {allowNeg : Bool} {lo hi : Int} {tyName input : List Char}
    {terminator : Char} {e : List Char}
    (h : get_terminated allowNeg lo hi tyName input terminator = .error e) :
    ∃ a, e = a ++ not_valid_sep ++ tyName := by
  unfold get_terminated at h
  split at h
  · split at h
    · cases h
    · exact ⟨_, (Except.error.inj h).symm⟩
  · cases h

theorem gtd_err {input : List Char} {terminator : Char} {e : List Char}
    (h : get_terminated_decimal input terminator = .error e) :
    (∃ a, e = a ++ not_valid_sep ++ ty_i64) ∨ (∃ a, e = a ++ not_valid_sep ++ ty_u32) := by
  unfold get_terminated_decimal at h
  split at h
  · cases h
  · split at h
    · exact Or.inl ⟨_, (Except.error.inj h).symm⟩
    · split at h
      · cases h
      · split at h
        · exact Or.inr ⟨_, (Except.error.inj h).symm⟩
        · split at h
          · cases h
          · cases h

theorem parse_datespec_err {ds e : List Char} (h : parse_datespec ds = .error e) :
    ErrTaxonomy e := by
  unfold parse_datespec at h
  split at h
  · rename_i e1 heq
    obtain ⟨a, ha⟩ := gt_err heq
    refine Or.inr (Or.inl ⟨a, ty_i32, ?_⟩)
    rw [← Except.error.inj h, ha]
  · rename_i r1 years heq1
    split at h
    · rename_i e1 heq
      obtain ⟨a, ha⟩ := gt_err heq
      refine Or.inr (Or.inl ⟨a, ty_i32, ?_⟩)
      rw [← Except.error.inj h, ha]
    · rename_i r2 months heq2
      split at h
      · rename_i e1 heq
        obtain ⟨a, ha⟩ := gt_err heq
        refine Or.inr (Or.inl ⟨a, ty_i64, ?_⟩)
        rw [← Except.error.inj h, ha]
      · rename_i r3 weeks heq3
        split at h
        · rename_i e1 heq
          obtain ⟨a, ha⟩ := gt_err heq
          refine Or.inr (Or.inl ⟨a, ty_i64, ?_⟩)
          rw [← Except.error.inj h, ha]
        · rename_i r4 days heq4
          split at h
          · refine Or.inr (Or.inr (Or.inl ⟨r4, ds, ?_⟩))
            rw [← Except.error.inj h]
          · split at h
            · cases h
            · refine Or.inr (Or.inr (Or.inr (Or.inr ?_)))
              rw [← Except.error.inj h]

theorem parse_timespec_err {ts e : List Char} (h : parse_timespec ts = .error e) :
    ErrTaxonomy e := by
  unfold parse_timespec at h
  split at h
  · rename_i e1 heq
    obtain ⟨a, ha⟩ := gt_err heq
    refine Or.inr (Or.inl ⟨a, ty_i64, ?_⟩)
    rw [← Except.error.inj h, ha]
  · rename_i r1 hours heq1
    split at h
    · rename_i e1 heq
      obtain ⟨a, ha⟩ := gt_err heq
      refine Or.inr (Or.inl ⟨a, ty_i64, ?_⟩)
      rw [← Except.error.inj h, ha]
    · rename_i r2 mins heq2
      split at h
      · rename_i e1 heq
        rcases gtd_err heq with ⟨a, ha⟩ | ⟨a, ha⟩
        · refine Or.inr (Or.inl ⟨a, ty_i64, ?_⟩)
          rw [← Except.error.inj h, ha]
        · refine Or.inr (Or.inl ⟨a, ty_u32, ?_⟩)
          rw [← Except.error.inj h, ha]
      · rename_i r3 secs nanos heq3
        split at h
        · refine Or.inr (Or.inr (Or.inr (Or.inl ⟨r3, ts, ?_⟩)))
          rw [← Except.error.inj h]
        · cases h

/-- Claim C8: `parse_from_iso8601` is total over `Except` — it returns a
value or a descriptive error, never aborts — and every error it returns
belongs to the documented taxonomy: missing P prefix, a numeric field that
fails to parse at its expected width, trailing characters after the ordered
fields of the date or time part, or checked-arithmetic overflow while
combining fields; each family is also exhibited on a concrete input, and a
well-formed input parses to a value. -/
theorem claim_C8 :
    (∀ s, (∃ r, RelativeDuration.parse_from_iso8601 s = .ok r) ∨
      (∃ e, RelativeDuration.parse_from_iso8601 s = .error e ∧ ErrTaxonomy e)) ∧
    RelativeDuration.parse_from_iso8601 ("1M".toList) = .error msg_no_p ∧
    RelativeDuration.parse_from_iso8601 ("PxD".toList) =
      .error ("x".toList ++ not_valid_sep ++ ty_i64) ∧
    RelativeDuration.parse_from_iso8601 ("P1DX".toList) =
      .error (msg_trailing ++ "X".toList ++ msg_in_datespec ++ "1DX".toList) ∧
    RelativeDuration.parse_from_iso8601 ("PT1HX".toList) =
      .error (msg_trailing ++ "X".toList ++ msg_in_timespec ++ "1HX".toList) ∧
    RelativeDuration.parse_from_iso8601 ("P199999999Y".toList) = .error overflow_msg ∧
    RelativeDuration.parse_from_iso8601 ("P200000000000000000D".toList) =
      .error overflow_msg ∧
    RelativeDuration.parse_from_iso8601 ("P1YT1S".toList) = .ok ⟨12, ⟨1, 0⟩⟩ := by
  refine ⟨?_, by decide, by decide, by decide, by decide, by decide, by decide, by decide⟩
  intro s
  rcases h : RelativeDuration.parse_from_iso8601 s with e | r
  · right
    refine ⟨e, rfl, ?_⟩
    unfold RelativeDuration.parse_from_iso8601 at h
    split at h
    · split at h
      · rename_i e1 heq
        have := parse_datespec_err heq
        rwa [Except.error.inj h] at this
      · rename_i years months days heq1
        split at h
        · rename_i e1 heq
          have := parse_timespec_err heq
          rwa [Except.error.inj h] at this
        · rename_i hours mins secs nanos heq2
          split at h
          · refine Or.inr (Or.inr (Or.inr (Or.inr ?_)))
            rw [← Except.error.inj h]
          · split at h
            · refine Or.inr (Or.inr (Or.inr (Or.inr ?_)))
              rw [← Except.error.inj h]
            · cases h
    · exact Or.inl (Except.error.inj h).symm
  · exact Or.inl ⟨r, rfl⟩
